import Mathlib

/-!
Verification of the `ha_rt` integration (Home Assistant ↔ RT bridge).

Shallow embedding of the core components:
 * `custom_components/ha_rt/rt_client.py` — TicketSQL sanitizer, RT REST2
   response mapping (probe, ticket creation, asset creation).
 * `custom_components/ha_rt/validators.py` — endpoint URL validator (SSRF).
 * `custom_components/ha_rt/__init__.py` — `create_ticket` service handler
   (ticket deduplication).
 * `custom_components/ha_rt/asset_sync.py` — per-device sync, full sweep,
   orphaned-asset cleanup.

Python's dynamic values are embedded as plain Lean data: machine strings as
`String`, optional values as `Option`, remote HTTP outcomes as explicit
oracle data, exceptions as `Except`.  Client methods that the repository's
callers and tests use but whose bodies are not present in the source tree
(`update_asset`, `list_assets`, `get_asset`, `search_tickets_for_asset`) are
modelled from the specification and marked as such in their doc comments.
-/

namespace HaRt

/-! ## Query sanitizer (`rt_client._escape_ticketsql`) -/

/-- A Python value reaching `_escape_ticketsql`: either a `str`, or a
non-string whose `str(value)` form is the stored string. -/
inductive PyValue where
  | str (s : String)
  | other (strForm : String)
deriving DecidableEq, Repr

/-- `str(value)` — the identity on strings, the `str` form otherwise. -/
def PyValue.toStr : PyValue → String
  | .str s => s
  | .other r => r

/-- Python `s.replace(old, new)` specialised to a one-character `old`
pattern, on the character list: every occurrence of `c` is replaced by the
characters of `r` (for a single-character pattern, occurrences cannot
overlap, so this is exactly CPython's left-to-right replacement). -/
def replaceCharL (c : Char) (r : List Char) : List Char → List Char
  | [] => []
  | ch :: rest => (if ch = c then r else [ch]) ++ replaceCharL c r rest

/-- Python `s.replace(old, new)` for a one-character `old`, on `String`. -/
def pyReplace (s : String) (c : Char) (r : String) : String :=
  ⟨replaceCharL c r.data s.data⟩

/-- `rt_client._escape_ticketsql`: coerce to `str`, escape backslashes
first (`\` → `\\`), then escape double quotes (`"` → `\"`). -/
def escape_ticketsql (value : PyValue) : String :=
  let value1 := value.toStr
  let value2 := pyReplace value1 '\\' "\\\\"
  pyReplace value2 '"' "\\\""

/-- Specification-side single-pass escape of one character: a backslash
becomes two backslashes, a double quote becomes backslash-quote, and every
other character is unchanged. -/
def escSpecChar (c : Char) : List Char :=
  if c = '\\' then ['\\', '\\']
  else if c = '"' then ['\\', '"'] else [c]

/-- Specification-side escape: each character of the input, escaped
independently, concatenated in order. -/
def escSpec (s : String) : String :=
  ⟨(s.data.map escSpecChar).flatten⟩

/-! ## RT client response mapping (`rt_client.RTClient`)

Each client method issues one HTTP call; we embed the call's outcome as an
explicit `HttpResult` (the status of the response, or an `aiohttp`
`ClientError` at transport level) and translate the method's
response-handling code into a pure function of that outcome. -/

/-- Outcome of one HTTP call: a response with a status code, or an
`aiohttp.ClientError` raised by the transport. -/
inductive HttpResult where
  | resp (status : Nat)
  | netError
deriving DecidableEq, Repr

/-- The integration's exceptions (`exceptions.py` / `validators.py`):
`InvalidAuth`, `RTAPIError` (carrying the failing status), `CannotConnect`
and `InvalidURL` all derive from `RTError`. -/
inductive RTErr where
  | invalidAuth (reason : String)
  | rtApiError (status : Nat)
  | cannotConnect
  | invalidURL (reason : String)
deriving DecidableEq, Repr

/-- `RTClient.test_connection`: 401 → `InvalidAuth("Invalid API token")`,
403 → `InvalidAuth("API token lacks permissions")`, any other non-200 →
`RTAPIError`, 200 → `True`; a transport `ClientError` → `CannotConnect`. -/
def test_connection (r : HttpResult) : Except RTErr Bool :=
  match r with
  | .netError => .error .cannotConnect
  | .resp status =>
    if status = 401 then .error (.invalidAuth "Invalid API token")
    else if status = 403 then .error (.invalidAuth "API token lacks permissions")
    else if status ≠ 200 then .error (.rtApiError status)
    else .ok true

/-! ### Ticket creation (`RTClient.create_ticket`) -/

/-- Python `"\n".join(parts)`. -/
def joinNL : List String → String
  | [] => ""
  | [s] => s
  | s :: rest => s ++ "\n" ++ joinNL rest

/-- The body-composition step of `RTClient.create_ticket`:
`content_parts = [text]`; when `area or address` is truthy append a blank
line, then `Location: <address>` when `address` is truthy, then
`Area: <area>` when `area` is truthy; join with newlines. -/
def ticketContent (text area address : String) : String :=
  let content_parts := [text] ++
    (if area ≠ "" ∨ address ≠ "" then
      [""] ++ (if address ≠ "" then ["Location: " ++ address] else []) ++
        (if area ≠ "" then ["Area: " ++ area] else [])
     else [])
  joinNL content_parts

/-- The response handling of `RTClient.create_ticket`: status 200/201
return the response's `id`; any other status raises `RTAPIError`; a
transport error raises `CannotConnect`. -/
def create_ticket_result (r : HttpResult) (respId : Nat) : Except RTErr Nat :=
  match r with
  | .netError => .error .cannotConnect
  | .resp status =>
    if status = 200 ∨ status = 201 then .ok respId
    else .error (.rtApiError status)

/-! ### Asset creation (`RTClient.create_asset`) — C5

The source's `create_asset` has parameters `(catalog, name, device_id,
device_info_url)` only, while its caller `asset_sync.sync_device` invokes
it with a full attribute keyword set.  We record both parameter-name lists
verbatim from the source to state the mismatch, and embed the
response-handling of the body. -/

/-- The parameter names accepted by `RTClient.create_asset` as defined in
`rt_client.py` (`self` omitted). -/
def create_asset_params : List String :=
  ["catalog", "name", "device_id", "device_info_url"]

/-- The keyword-argument names `asset_sync.sync_device` passes to
`rt_client.create_asset` on the create path (after the three positional
arguments `catalog`, `device_name`, `device_id`). -/
def sync_device_create_kwargs : List String :=
  ["manufacturer", "model", "serial_number", "sw_version", "hw_version",
   "config_url", "mac_address", "area", "address"]

/-- The response handling of `RTClient.create_asset`: 200/201 return
`{"id": …}`; any other status and any transport error return `None`
(logged), never raised. -/
def create_asset_result (r : HttpResult) (respId : Nat) : Option Nat :=
  match r with
  | .netError => none
  | .resp status =>
    if status = 200 ∨ status = 201 then some respId else none

/-! ## Endpoint validator (`validators.py`)

The validator receives the result of `urllib.parse.urlparse`; we embed a
URL as its raw text together with the parsed scheme and hostname.  The
literal-IP check embeds CPython's `ipaddress.ip_address` text parsing
(IPv4 dotted-quad first, then IPv6 with `::` compression, an optional
IPv4-mapped tail and an optional `%scope`). -/

/-- A literal IP address: IPv4 as its 32-bit value, IPv6 as its 128-bit
value. -/
inductive IPAddr where
  | v4 (n : Nat)
  | v6 (n : Nat)
deriving DecidableEq, Repr

/-- The numeric value of an address is in range for its version. -/
def IPAddr.wf : IPAddr → Prop
  | .v4 n => n < 2 ^ 32
  | .v6 n => n < 2 ^ 128

/-- Python `s.split(sep)` for a one-character separator, on character
lists (structurally recursive so that proofs can evaluate it). -/
def splitOnChar (c : Char) : List Char → List (List Char)
  | [] => [[]]
  | ch :: rest =>
    let r := splitOnChar c rest
    if ch = c then [] :: r
    else
      match r with
      | [] => [[ch]]
      | g :: gs => (ch :: g) :: gs

/-- Python `s.lower()` (ASCII case fold — hostnames are ASCII here). -/
def pyLower (s : String) : String := ⟨s.data.map Char.toLower⟩

/-- Python `s.endswith(suffix)`. -/
def strEndsWith (s suffix : String) : Bool := suffix.data.isSuffixOf s.data

/-- One decimal octet of a dotted quad (CPython `_parse_octet`): non-empty,
at most three ASCII digits, no leading zero, value at most 255. -/
def parseDecOctet (cs : List Char) : Option Nat :=
  if cs = [] then none
  else if cs.length > 3 then none
  else if ¬ cs.all (·.isDigit) then none
  else if cs.length > 1 ∧ cs.headD '0' = '0' then none
  else
    let n := cs.foldl (fun a c => a * 10 + (c.toNat - 48)) 0
    if n ≤ 255 then some n else none

/-- CPython `IPv4Address` text parsing: exactly four octets joined by
dots. -/
def parse_ipv4L (cs : List Char) : Option Nat :=
  match splitOnChar '.' cs with
  | [a, b, c, d] =>
    match parseDecOctet a, parseDecOctet b, parseDecOctet c, parseDecOctet d with
    | some x, some y, some z, some w =>
      some (((x * 256 + y) * 256 + z) * 256 + w)
    | _, _, _, _ => none
  | _ => none

/-- `parse_ipv4L` on a `String`. -/
def parse_ipv4 (s : String) : Option Nat := parse_ipv4L s.data

/-- Value of one hex digit. -/
def hexVal (c : Char) : Nat :=
  if c.isDigit then c.toNat - 48
  else if 'a' ≤ c ∧ c ≤ 'f' then c.toNat - 87
  else c.toNat - 55

/-- Whether a character is an ASCII hex digit. -/
def isHexDigit (c : Char) : Bool :=
  c.isDigit ∨ ('a' ≤ c ∧ c ≤ 'f') ∨ ('A' ≤ c ∧ c ≤ 'F')

/-- CPython `_parse_hextet`: one to four hex digits. -/
def parseHextet (cs : List Char) : Option Nat :=
  if cs = [] then none
  else if cs.length > 4 then none
  else if ¬ cs.all (fun c => isHexDigit c) then none
  else some (cs.foldl (fun a c => a * 16 + hexVal c) 0)

/-- Big-endian assembly of 16-bit groups. -/
def hextetsToNat (hts : List Nat) : Nat :=
  hts.foldl (fun a h => a * 65536 + h) 0

/-- One colon-separated part as a token: `none` for an empty part (a
candidate `::` position), a parsed hextet value otherwise. -/
def v6Token (p : List Char) : Option (Option Nat) :=
  if p = [] then some none else (parseHextet p).map some

/-- CPython `_ip_int_from_string` structure handling, after splitting on
colons and expanding an IPv4 tail: locate the single interior empty part
(the `::`), check the leading/trailing-colon rules and the group count,
and assemble the 128-bit value. -/
def assembleV6 (toks : List (Option Nat)) : Option Nat :=
  if toks.length > 9 then none
  else
    let n := toks.length
    let gaps := (List.range n).filter
      (fun i => 1 ≤ i ∧ i + 1 < n ∧ toks.get? i = some none)
    match gaps with
    | [] =>
      if n ≠ 8 then none
      else if toks.get? 0 = some none then none
      else if toks.get? (n - 1) = some none then none
      else (toks.mapM id).map hextetsToNat
    | [i] =>
      let firstEmpty := toks.get? 0 = some none
      let lastEmpty := toks.get? (n - 1) = some none
      if firstEmpty ∧ i ≠ 1 then none
      else if lastEmpty ∧ n - i - 1 ≠ 1 then none
      else
        let parts_hi := if firstEmpty then i - 1 else i
        let parts_lo := if lastEmpty then n - i - 2 else n - i - 1
        if parts_hi + parts_lo > 7 then none
        else
          match (toks.take parts_hi).mapM id, (toks.drop (n - parts_lo)).mapM id with
          | some hiVals, some loVals =>
            some (hextetsToNat hiVals * 65536 ^ (8 - parts_hi) + hextetsToNat loVals)
          | _, _ => none
    | _ => none

/-- CPython `IPv6Address` text parsing minus the `%scope` suffix: split on
colons, require at least three parts, expand a dotted IPv4 tail into two
hextets, then run the structural assembly. -/
def parse_ipv6_core (cs : List Char) : Option Nat :=
  let parts0 := splitOnChar ':' cs
  if parts0.length < 3 then none
  else
    let last := parts0.getLast?.getD []
    let toks : Option (List (Option Nat)) :=
      if last.contains '.' then
        match parse_ipv4L last with
        | some v4 =>
          (parts0.dropLast.mapM v6Token).map
            (· ++ [some (v4 / 65536), some (v4 % 65536)])
        | none => none
      else parts0.mapM v6Token
    match toks with
    | some ts => assembleV6 ts
    | none => none

/-- CPython `IPv6Address` text parsing including the optional non-empty
`%scope` suffix (which may not itself contain `%`). -/
def parse_ipv6 (s : String) : Option Nat :=
  match splitOnChar '%' s.data with
  | [addr] => parse_ipv6_core addr
  | [addr, scope] => if scope = [] then none else parse_ipv6_core addr
  | _ => none

/-- CPython `ipaddress.ip_address` on a string: IPv4 first, IPv6 next. -/
def parse_ip (s : String) : Option IPAddr :=
  match parse_ipv4 s with
  | some n => some (.v4 n)
  | none =>
    match parse_ipv6 s with
    | some n => some (.v6 n)
    | none => none

/-- An `ipaddress.ip_network` literal: version tag, network address and
prefix length. -/
structure IPNetwork where
  isV6 : Bool
  netAddr : Nat
  prefixLen : Nat
deriving DecidableEq, Repr

/-- A dotted quad as a 32-bit value. -/
def ipv4Octets (a b c d : Nat) : Nat := ((a * 256 + b) * 256 + c) * 256 + d

/-- CPython `address in network`: false across versions, otherwise the
network-prefix bits agree. -/
def IPNetwork.contains (net : IPNetwork) (ip : IPAddr) : Bool :=
  match ip with
  | .v4 n => !net.isV6 && (n / 2 ^ (32 - net.prefixLen)
      = net.netAddr / 2 ^ (32 - net.prefixLen))
  | .v6 n => net.isV6 && (n / 2 ^ (128 - net.prefixLen)
      = net.netAddr / 2 ^ (128 - net.prefixLen))

/-- `validators.BLOCKED_IP_NETWORKS`. -/
def BLOCKED_IP_NETWORKS : List IPNetwork :=
  [⟨false, ipv4Octets 10 0 0 0, 8⟩,
   ⟨false, ipv4Octets 172 16 0 0, 12⟩,
   ⟨false, ipv4Octets 192 168 0 0, 16⟩,
   ⟨false, ipv4Octets 127 0 0 0, 8⟩,
   ⟨false, ipv4Octets 169 254 0 0, 16⟩,
   ⟨true, 1, 128⟩,
   ⟨true, 0xfc00 * 2 ^ 112, 7⟩,
   ⟨true, 0xfe80 * 2 ^ 112, 10⟩]

/-- `validators.BLOCKED_HOSTNAMES`. -/
def BLOCKED_HOSTNAMES : List String :=
  ["localhost", "localhost.localdomain", "metadata.google.internal",
   "metadata.internal"]

/-- `validators.BLOCKED_HOSTNAME_PATTERNS` as a predicate: the regexes
`^169\.254\.169\.254$`, `.*\.internal$`, `.*\.local$` applied with
`re.match`. -/
def matchesBlockedPattern (h : String) : Bool :=
  h = "169.254.169.254" || strEndsWith h ".internal" || strEndsWith h ".local"

/-- The result of `urllib.parse.urlparse` on the candidate URL, together
with the raw URL text: `scheme` (lower-cased by `urlparse`), `hostname`
(`None` when absent). -/
structure ParsedUrl where
  raw : String
  scheme : String
  hostname : Option String
deriving DecidableEq, Repr

/-- `validators.validate_rt_url`: empty check, scheme policy, hostname
presence, hostname denylist, hostname patterns, literal-IP denylist, in
the source's order; every failure raises `InvalidURL`. -/
def validate_rt_url (url : ParsedUrl) (allow_http : Bool) : Except RTErr String :=
  if url.raw = "" then .error (.invalidURL "URL cannot be empty")
  else if ¬allow_http ∧ url.scheme ≠ "https" then
    .error (.invalidURL "Only HTTPS URLs are allowed for security")
  else if url.scheme ≠ "http" ∧ url.scheme ≠ "https" then
    .error (.invalidURL "Invalid URL scheme")
  else
    let hostname := url.hostname.getD ""
    if hostname = "" then .error (.invalidURL "URL must include a hostname")
    else
      let hostname_lower := pyLower hostname
      if hostname_lower ∈ BLOCKED_HOSTNAMES then
        .error (.invalidURL "Blocked hostname")
      else if matchesBlockedPattern hostname_lower then
        .error (.invalidURL "Blocked hostname pattern")
      else
        match parse_ip hostname with
        | some ip =>
          if BLOCKED_IP_NETWORKS.any (fun network => network.contains ip) then
            .error (.invalidURL "Blocked IP range")
          else .ok url.raw
        | none => .ok url.raw

/-- The address ranges named by the specification, stated arithmetically:
10/8, 172.16/12, 192.168/16, 127/8, 169.254/16 for IPv4; ::1/128,
fe80::/10, fc00::/7 for IPv6. -/
def specBlockedIP : IPAddr → Prop
  | .v4 n =>
    (10 * 2 ^ 24 ≤ n ∧ n < 11 * 2 ^ 24) ∨
    (172 * 2 ^ 24 + 16 * 2 ^ 16 ≤ n ∧ n < 172 * 2 ^ 24 + 32 * 2 ^ 16) ∨
    (192 * 2 ^ 24 + 168 * 2 ^ 16 ≤ n ∧ n < 192 * 2 ^ 24 + 169 * 2 ^ 16) ∨
    (127 * 2 ^ 24 ≤ n ∧ n < 128 * 2 ^ 24) ∨
    (169 * 2 ^ 24 + 254 * 2 ^ 16 ≤ n ∧ n < 169 * 2 ^ 24 + 255 * 2 ^ 16)
  | .v6 n =>
    n = 1 ∨
    (0xfe80 * 2 ^ 112 ≤ n ∧ n < 0xfec0 * 2 ^ 112) ∨
    (0xfc00 * 2 ^ 112 ≤ n ∧ n < 0xfe00 * 2 ^ 112)

/-! ## External collaborators: device/area registry and remote RT store

The device registry and the RT server are external systems; we model the
registry as the data the handler reads, and the RT store as explicit state
threaded through the client operations (happy-path server semantics, with
HTTP failures injected through explicit oracle flags where a code path
handles them). -/

/-- A device registry entry (the fields the integration reads).
`entry_type = none` means physical hardware. -/
structure Device where
  id : String
  name : Option String
  name_by_user : Option String
  entry_type : Option String
  manufacturer : Option String
  model : Option String
  serial_number : Option String
  sw_version : Option String
  hw_version : Option String
  configuration_url : Option String
  connections : List (String × String)
  area_id : Option String
deriving DecidableEq, Repr

/-- The device and area registries. -/
structure Registry where
  devices : List Device
  areas : List (String × String)
deriving DecidableEq, Repr

/-- `device_registry.async_get(device_id)`. -/
def Registry.getDevice (reg : Registry) (device_id : String) : Option Device :=
  reg.devices.find? (fun d => d.id == device_id)

/-- `area_registry.async_get_area(area_id)`, projected to the name. -/
def Registry.getAreaName (reg : Registry) (area_id : String) : Option String :=
  (reg.areas.find? (fun p => p.1 == area_id)).map (·.2)

/-- Python `x or y` for an optional string: the string when truthy
(present and non-empty), the alternative otherwise. -/
def orStr (o : Option String) (alt : String) : String :=
  match o with
  | some s => if s = "" then alt else s
  | none => alt

/-- Python `s.rstrip("/")`. -/
def rstripSlash (s : String) : String :=
  ⟨(s.data.reverse.dropWhile (· == '/')).reverse⟩

/-- `const.OPEN_STATUSES`. -/
def OPEN_STATUSES : List String := ["new", "open", "stalled"]

/-- A ticket record on the RT server (the fields this system reads or
writes: custom fields beyond these are not consulted by the code). -/
structure Ticket where
  id : Nat
  queue : String
  subject : String
  status : String
  content : String
  deviceIdCF : String
  deviceInfoCF : String
  areaCF : String
  addressCF : String
  refersToAsset : Option Nat
  comments : List String
deriving DecidableEq, Repr

/-- An asset record on the RT server.  `deviceIdCF = none` models an
absent `DeviceId` custom field. -/
structure Asset where
  id : Nat
  catalog : String
  name : String
  status : String
  deviceIdCF : Option String
deriving DecidableEq, Repr

/-- The RT server's state: tickets, assets, and the next identifiers it
will assign. -/
structure RemoteState where
  tickets : List Ticket
  assets : List Asset
  nextTicketId : Nat
  nextAssetId : Nat
deriving DecidableEq, Repr

/-- `RTClient.search_asset`: the TicketSQL query matches catalog and the
DeviceId custom field (no status clause); the first item is returned; a
non-200 response or transport error is a soft failure returning `None`
(`httpOk = false`). -/
def search_asset (httpOk : Bool) (st : RemoteState) (catalog device_id : String) :
    Option Asset :=
  if !httpOk then none
  else (st.assets.filter
    (fun a => a.catalog == catalog && a.deviceIdCF == some device_id)).head?

/-- Modelled from the spec: `RTClient.search_tickets_for_asset` is invoked
by the `create_ticket` service handler but its body is not in the source
tree.  Spec §4.3 `findOpenTicket(queue, assetId, subject)`: the query ANDs
the queue, an OR of the open-status set, an asset-reference match and an
exact subject match; the ordered match list is returned (lowest id first,
the order the remote search returns — ticket lists here are kept in
creation order, so ids ascend). -/
def search_tickets_for_asset (st : RemoteState) (queue : String) (asset_id : Nat)
    (subject : String) : List Ticket :=
  st.tickets.filter (fun t =>
    t.queue == queue && OPEN_STATUSES.contains t.status &&
    t.refersToAsset == some asset_id && t.subject == subject)

/-- `RTClient.create_ticket` on the server: a new ticket in the queue with
the composed content, the DeviceId/Device-Information/Area/Address custom
fields (each written only when truthy), status `new`, no asset link yet. -/
def create_ticket_op (st : RemoteState)
    (queue subject text device_id device_info_url area address : String) :
    RemoteState × Nat :=
  let t : Ticket :=
    { id := st.nextTicketId, queue := queue, subject := subject,
      status := "new", content := ticketContent text area address,
      deviceIdCF := device_id, deviceInfoCF := device_info_url,
      areaCF := area, addressCF := address,
      refersToAsset := none, comments := [] }
  ({ st with tickets := st.tickets ++ [t], nextTicketId := st.nextTicketId + 1 },
    st.nextTicketId)

/-- `RTClient.add_comment` on the server. -/
def add_comment_op (st : RemoteState) (ticket_id : Nat) (text : String) :
    RemoteState :=
  { st with tickets := st.tickets.map (fun t =>
      if t.id == ticket_id then { t with comments := t.comments ++ [text] } else t) }

/-- `RTClient.link_ticket_to_asset` on the server: sets the `RefersTo`
reference; returns success. -/
def link_ticket_op (st : RemoteState) (ticket_id asset_id : Nat) :
    RemoteState × Bool :=
  ({ st with tickets := st.tickets.map (fun t =>
      if t.id == ticket_id then { t with refersToAsset := some asset_id } else t) },
    true)

/-! ## Ticket deduplication: the `create_ticket` service handler -/

/-- The configuration data of the first config entry that
`handle_create_ticket` reads from `hass.data`. -/
structure EntryData where
  queue : String
  base_url : String
  ha_url : String
  address : String
  catalog : String
deriving DecidableEq, Repr

/-- The service handler's response. `searched_tickets` instruments whether
the open-ticket search was issued (the guarded `if asset_id:` branch);
the source returns only the other three fields. -/
structure ServiceResult where
  ticket_id : Nat
  ticket_url : String
  action : String
  searched_tickets : Bool
deriving DecidableEq, Repr

/-- The handler's asset-resolution step: `if device_id:` guard, then
`search_asset`, keeping the `id` of the result when found. -/
def resolve_asset_id (assetSearchOk : Bool) (st : RemoteState)
    (catalog device_id : String) : Option Nat :=
  if device_id ≠ "" then
    (search_asset assetSearchOk st catalog device_id).map (·.id)
  else none

/-- `__init__.handle_create_ticket`: resolve device name and area label,
build the device-info URL (configured HA URL preferred, auto-detected URL
as fallback — `haUrlAuto = none` models `NoURLAvailableError`), resolve
the asset for the device (soft failure modelled by
`assetSearchOk = false`), search open tickets linked to that asset with
the same subject, then either comment on the first match or create a new
ticket and link it to the asset. -/
def handle_create_ticket (reg : Registry) (entry : EntryData)
    (haUrlAuto : Option String) (assetSearchOk : Bool) (st : RemoteState)
    (device_id subject text : String) : RemoteState × ServiceResult :=
  let device := if device_id ≠ "" then reg.getDevice device_id else none
  let device_name := match device with
    | some d => orStr d.name_by_user (orStr d.name device_id)
    | none => device_id
  let area_name := match device with
    | some d => match d.area_id with
      | some aid => if aid ≠ "" then (reg.getAreaName aid).getD "" else ""
      | none => ""
    | none => ""
  let device_info_url :=
    if device_id ≠ "" then
      if entry.ha_url ≠ "" then
        rstripSlash entry.ha_url ++ "/config/devices/device/" ++ device_id
      else match haUrlAuto with
        | some ha_url => ha_url ++ "/config/devices/device/" ++ device_id
        | none => ""
    else ""
  let asset_id := resolve_asset_id assetSearchOk st entry.catalog device_id
  let existing := match asset_id with
    | some aid => search_tickets_for_asset st entry.queue aid subject
    | none => []
  match existing.head? with
  | some t0 =>
    let st1 := add_comment_op st t0.id text
    (st1,
      { ticket_id := t0.id,
        ticket_url := rstripSlash entry.base_url ++ "/Ticket/Display.html?id="
          ++ toString t0.id,
        action := "commented", searched_tickets := asset_id.isSome })
  | none =>
    let created := create_ticket_op st entry.queue subject text device_id
      device_info_url area_name entry.address
    let st1 := created.1
    let ticket_id := created.2
    let st2 := match asset_id with
      | some aid => (link_ticket_op st1 ticket_id aid).1
      | none => st1
    (st2,
      { ticket_id := ticket_id,
        ticket_url := rstripSlash entry.base_url ++ "/Ticket/Display.html?id="
          ++ toString ticket_id,
        action := "created", searched_tickets := asset_id.isSome })

/-! ## Asset reconciliation (`asset_sync.py`)

`sync_device` calls the client's `create_asset`/`update_asset` with the
full attribute set.  The attribute-accepting client methods are not in the
source tree (see C5); they are modelled from the spec, and per-device HTTP
outcomes are injected through a `SyncOracle` exactly the way the
repository's own tests inject them through a mocked client. -/

/-- Outcome of `sync_device`: `True` / `False` / `None` in the source. -/
inductive SyncRes where
  | success
  | failure
  | skipped
deriving DecidableEq, Repr

/-- Remote-call behaviour of the create call for one device: it returns an
identifier, returns `None` (non-2xx, soft failure), or raises an
unexpected exception. -/
inductive CreateBehavior where
  | succeeds
  | fails
  | raises
deriving DecidableEq, Repr

/-- Per-call HTTP outcomes for one sweep, keyed the way the calls are
issued: asset search and create by device id, update by asset id. -/
structure SyncOracle where
  searchOk : String → Bool
  create : String → CreateBehavior
  updateOk : Nat → Bool

/-- Modelled from the spec: the attribute-accepting `createAsset` (absent
from the source tree; `rt_client.py`'s copy lacks the attribute
parameters, see C5).  Creates an active asset in the catalog carrying the
DeviceId custom field and returns the new identifier. -/
def create_asset_op (st : RemoteState) (catalog name device_id : String) :
    RemoteState × Nat :=
  let a : Asset :=
    { id := st.nextAssetId, catalog := catalog, name := name,
      status := "active", deviceIdCF := some device_id }
  ({ st with assets := st.assets ++ [a], nextAssetId := st.nextAssetId + 1 },
    st.nextAssetId)

/-- Modelled from the spec: `updateAsset(assetId, attributes…)` — only
present fields are written; any non-2xx is returned to the caller as
`False` (`httpOk = false`), never raised. -/
def update_asset_op (httpOk : Bool) (st : RemoteState) (asset_id : Nat)
    (newName : Option String) (newStatus : Option String) : RemoteState × Bool :=
  if !httpOk then (st, false)
  else
    ({ st with assets := st.assets.map (fun a =>
        if a.id == asset_id then
          { a with name := newName.getD a.name, status := newStatus.getD a.status }
        else a) },
      true)

/-- Modelled from the spec: `listAssets(catalog)` returns the catalog's
non-deleted, non-missing assets (the caller's comment: "excludes deleted
and stolen"). -/
def list_assets (st : RemoteState) (catalog : String) : List Asset :=
  st.assets.filter (fun a =>
    a.catalog == catalog && !(a.status == "deleted") && !(a.status == "stolen"))

/-- Modelled from the spec: `getAsset(assetId)` detail fetch. -/
def get_asset (st : RemoteState) (asset_id : Nat) : Option Asset :=
  st.assets.find? (fun a => a.id == asset_id)

/-- The MAC-address extraction of `sync_device`: first connection of type
`mac`. -/
def extractMac (connections : List (String × String)) : String :=
  match connections.filter (fun c => c.1 == "mac") with
  | [] => ""
  | c :: _ => c.2

/-- `asset_sync.sync_device`: absent device → `False`; non-physical
(`entry_type` set) → `None`; otherwise search for the asset by DeviceId
and update it when found, create it otherwise.  The create call's remote
behaviour comes from the oracle; `.raises` models an unexpected exception
escaping `sync_device`. -/
def sync_device (reg : Registry) (o : SyncOracle) (st : RemoteState)
    (catalog device_id address : String) : Except Unit SyncRes × RemoteState :=
  match reg.getDevice device_id with
  | none => (.ok .failure, st)
  | some device =>
    if device.entry_type.isSome then (.ok .skipped, st)
    else
      let device_name := orStr device.name_by_user (orStr device.name device_id)
      let _manufacturer := orStr device.manufacturer ""
      let _mac_address := extractMac device.connections
      let existing := search_asset (o.searchOk device_id) st catalog device_id
      match existing with
      | some a =>
        let updated := update_asset_op (o.updateOk a.id) st a.id
          (some device_name) none
        (.ok (if updated.2 then .success else .failure), updated.1)
      | none =>
        match o.create device_id with
        | .raises => (.error (), st)
        | .fails => (.ok .failure, st)
        | .succeeds =>
          let created := create_asset_op st catalog device_name device_id
          (.ok .success, created.1)

/-- The tallies returned by `sync_all_devices`. -/
structure SyncTallies where
  synced : Nat
  failed : Nat
  skipped : Nat
  deleted : Nat
deriving DecidableEq, Repr

/-- The per-device loop of `sync_all_devices`: every device of the
registry is attempted in order; an exception from `sync_device` is caught
and counted as failed.  Also returns the ids attempted, in order
(instrumentation; the source only tallies). -/
def sync_sweep (reg : Registry) (o : SyncOracle) (catalog address : String) :
    List Device → RemoteState → SyncTallies × RemoteState × List String
  | [], st => (⟨0, 0, 0, 0⟩, st, [])
  | d :: rest, st =>
    let step := sync_device reg o st catalog d.id address
    let tail := sync_sweep reg o catalog address rest step.2
    let tal := tail.1
    let tal' := match step.1 with
      | .error _ => { tal with failed := tal.failed + 1 }
      | .ok .success => { tal with synced := tal.synced + 1 }
      | .ok .failure => { tal with failed := tal.failed + 1 }
      | .ok .skipped => { tal with skipped := tal.skipped + 1 }
    (tal', tail.2.1, d.id :: tail.2.2)

/-- The orphan-decision data of one cleanup iteration, read from the
asset's detail: the DeviceId custom field value (`None` when the field is
absent, the source's `values[0]` when present). -/
def cleanup_loop (valid_device_ids : List String) (o : SyncOracle) :
    List Asset → RemoteState → RemoteState × Nat
  | [], st => (st, 0)
  | ref :: rest, st =>
    if ref.id == 0 then cleanup_loop valid_device_ids o rest st
    else
      match get_asset st ref.id with
      | none => cleanup_loop valid_device_ids o rest st
      | some asset =>
        match asset.deviceIdCF with
        | none => cleanup_loop valid_device_ids o rest st
        | some device_id =>
          if device_id == "" then cleanup_loop valid_device_ids o rest st
          else if valid_device_ids.contains device_id then
            cleanup_loop valid_device_ids o rest st
          else
            let updated := update_asset_op (o.updateOk ref.id) st ref.id
              none (some "deleted")
            let tail := cleanup_loop valid_device_ids o rest updated.1
            (tail.1, if updated.2 then tail.2 + 1 else tail.2)

/-- `asset_sync.cleanup_orphaned_assets`: list the catalog's active
assets, and for each one fetch its detail and mark it deleted when its
DeviceId does not belong to a present physical device; assets with a
missing (or empty, or falsy-id) record are skipped.  Returns the deleted
count. -/
def cleanup_orphaned_assets (reg : Registry) (o : SyncOracle) (st : RemoteState)
    (catalog : String) : RemoteState × Nat :=
  let valid_device_ids :=
    (reg.devices.filter (fun d => d.entry_type.isNone)).map (·.id)
  let assets := list_assets st catalog
  cleanup_loop valid_device_ids o assets st

/-- `asset_sync.sync_all_devices`: sweep every device, then (with
`cleanup` set, the default) run orphan cleanup and record its count in
the `deleted` tally. -/
def sync_all_devices (reg : Registry) (o : SyncOracle) (catalog : String)
    (cleanup : Bool) (address : String) (st : RemoteState) :
    SyncTallies × RemoteState :=
  let swept := sync_sweep reg o catalog address reg.devices st
  if cleanup then
    let cleaned := cleanup_orphaned_assets reg o swept.2.1 catalog
    ({ swept.1 with deleted := cleaned.2 }, cleaned.1)
  else (swept.1, swept.2.1)

/-- Whether the create call for a device does not succeed (returns `None`
or raises). -/
def isFailing (o : SyncOracle) (id : String) : Bool :=
  match o.create id with
  | .succeeds => false
  | .fails => true
  | .raises => true

/-- Marking an asset deleted when a flag holds (proof device used to
characterise the cleanup sweep). -/
def patchDel (g : Asset → Bool) (a : Asset) : Asset :=
  if g a then { a with status := "deleted" } else a

/-- The cleanup sweep's actual deletion condition for a listed asset: a
truthy id, a present and non-empty DeviceId custom field, and no match
among the physical device ids. -/
def orphanDel (valid : List String) (a : Asset) : Bool :=
  !(a.id == 0) &&
    (match a.deviceIdCF with
     | none => false
     | some d => !(d == "") && !(valid.contains d))

theorem replaceCharL_append (c : Char) (r : List Char) (xs ys : List Char) :
    replaceCharL c r (xs ++ ys) = replaceCharL c r xs ++ replaceCharL c r ys := by
  induction xs with
  | nil => rfl
  | cons x xs ih => simp [replaceCharL, ih]

theorem escape_passes_eq_single_pass (l : List Char) :
    replaceCharL '"' ['\\', '"'] (replaceCharL '\\' ['\\', '\\'] l)
      = (l.map escSpecChar).flatten := by
  induction l with
  | nil => rfl
  | cons ch rest ih =>
    by_cases hb : ch = '\\'
    · subst hb
      simp [replaceCharL, escSpecChar, ih]
    · by_cases hq : ch = '"'
      · subst hq
        simp [replaceCharL, escSpecChar, ih]
      · simp [replaceCharL, escSpecChar, hb, hq, ih]

/-- **C2.** For every input value, `_escape_ticketsql` coerces the value to
its string form and returns exactly the single-pass escape in which every
backslash of the input becomes two backslashes and every double quote
becomes backslash-quote — i.e. the backslash pass followed by the quote
pass, in that order, never double-escapes.  Being a total Lean function of
type `PyValue → String`, it is defined (never throws) on every input,
including the empty string and strings of only backslashes and quotes. -/
theorem escape_ticketsql_spec (value : PyValue) :
    escape_ticketsql value = escSpec value.toStr := by
  unfold escape_ticketsql escSpec pyReplace
  simp only
  exact congrArg String.mk (escape_passes_eq_single_pass value.toStr.data)

/-- **C7 counterexample.** The claim says every non-200 status other than
401/403 raises `ConnectError` (`CannotConnect`); on status 500 the probe
instead raises `RTAPIError 500`, which is a distinct exception class
(`config_flow.py` catches the two separately). -/
theorem test_connection_500_not_connect_error :
    test_connection (.resp 500) = .error (.rtApiError 500) ∧
    test_connection (.resp 500) ≠ .error .cannotConnect := by
  constructor
  · rfl
  · simp [test_connection]

/-- **C7 (amended).** The probe maps 200 to success, 401 to `InvalidAuth`
with the invalid-token reason, 403 to `InvalidAuth` with the
insufficient-permission reason, every other status to `RTAPIError` carrying
that status, and a transport-level failure to `CannotConnect`. -/
theorem test_connection_mapping :
    test_connection (.resp 200) = .ok true ∧
    test_connection (.resp 401) = .error (.invalidAuth "Invalid API token") ∧
    test_connection (.resp 403) = .error (.invalidAuth "API token lacks permissions") ∧
    (∀ status : Nat, status ≠ 200 → status ≠ 401 → status ≠ 403 →
      test_connection (.resp status) = .error (.rtApiError status)) ∧
    test_connection .netError = .error .cannotConnect := by
  refine ⟨rfl, rfl, rfl, ?_, rfl⟩
  intro status h200 h401 h403
  simp [test_connection, h200, h401, h403]

/-- Witness for `test_connection_mapping` at status 500. -/
theorem test_connection_mapping_witness :
    test_connection (.resp 500) = .error (.rtApiError 500) :=
  test_connection_mapping.2.2.2.1 500 (by decide) (by decide) (by decide)

theorem append_lit_merge (x y z : String) (h : x ++ y = z) (s : String) :
    x ++ (y ++ s) = z ++ s := by
  rw [← String.append_assoc, h]

/-- **C8.** The composed ticket content equals the input text when both
`area` and `address` are empty; otherwise it is the text, a blank line,
then a `Location:` line exactly when the address is non-empty, then an
`Area:` line exactly when the area is non-empty, in that order.  And every
non-2xx response makes `create_ticket` raise rather than return. -/
theorem create_ticket_spec :
    (∀ text : String, ticketContent text "" "" = text) ∧
    (∀ text area address : String, area ≠ "" → address ≠ "" →
      ticketContent text area address =
        text ++ "\n\nLocation: " ++ address ++ "\nArea: " ++ area) ∧
    (∀ text address : String, address ≠ "" →
      ticketContent text "" address = text ++ "\n\nLocation: " ++ address) ∧
    (∀ text area : String, area ≠ "" →
      ticketContent text area "" = text ++ "\n\nArea: " ++ area) ∧
    (∀ (status respId : Nat), ¬ (200 ≤ status ∧ status ≤ 299) →
      ∃ e, create_ticket_result (.resp status) respId = .error e) := by
  refine ⟨?_, ?_, ?_, ?_, ?_⟩
  · intro text
    rfl
  · intro text area address ha hd
    simp only [ticketContent, ha, hd, ne_eq, not_false_eq_true, or_true, if_true,
      List.append_assoc, List.cons_append, List.nil_append, if_pos, joinNL,
      String.append_assoc, String.empty_append]
    rw [append_lit_merge "\n" "Area: " "\nArea: " (by decide),
      append_lit_merge "\n" "Location: " "\nLocation: " (by decide),
      append_lit_merge "\n" "\nLocation: " "\n\nLocation: " (by decide)]
  · intro text address hd
    simp only [ticketContent, hd, ne_eq, not_false_eq_true, or_true, if_true,
      List.append_assoc, List.cons_append, List.nil_append, joinNL,
      String.append_assoc, String.empty_append]
    rw [append_lit_merge "\n" "Location: " "\nLocation: " (by decide),
      append_lit_merge "\n" "\nLocation: " "\n\nLocation: " (by decide)]
  · intro text area ha
    simp only [ticketContent, ha, ne_eq, not_false_eq_true, true_or, if_true,
      List.append_assoc, List.cons_append, List.nil_append, joinNL,
      String.append_assoc, String.empty_append]
    rw [append_lit_merge "\n" "Area: " "\nArea: " (by decide),
      append_lit_merge "\n" "\nArea: " "\n\nArea: " (by decide)]
  · intro status respId hs
    refine ⟨.rtApiError status, ?_⟩
    have h200 : status ≠ 200 := by omega
    have h201 : status ≠ 201 := by omega
    simp [create_ticket_result, h200, h201]

/-- Witness for `create_ticket_spec` on concrete inputs. -/
theorem create_ticket_spec_witness :
    ticketContent "water on floor" "Kitchen" "Main St 1" =
      "water on floor\n\nLocation: Main St 1\nArea: Kitchen" ∧
    ticketContent "water on floor" "" "" = "water on floor" ∧
    ∃ e, create_ticket_result (.resp 400) 7 = .error e := by
  refine ⟨?_, ?_, ?_⟩
  · exact create_ticket_spec.2.1 "water on floor" "Kitchen" "Main St 1"
      (by decide) (by decide)
  · exact create_ticket_spec.1 "water on floor"
  · exact create_ticket_spec.2.2.2.2 400 7 (by omega)

/-- **C5 (code bug).** Every keyword of the attribute set that
`sync_device` passes on its create path is absent from `create_asset`'s
parameter list — in Python this call raises `TypeError` — so
`create_asset` does not accept the optional attribute set the claim (and
its caller, and the `ASSET_*_FIELD` constants of `const.py`) expects.  The
response handling it does have matches the claim: an identifier on
200/201, `None` (failure returned, not raised) on every other status and
on transport errors. -/
theorem create_asset_kwargs_mismatch :
    (∀ k ∈ sync_device_create_kwargs, k ∉ create_asset_params) ∧
    (∀ respId : Nat, create_asset_result (.resp 201) respId = some respId) ∧
    (∀ respId : Nat, create_asset_result (.resp 400) respId = none) ∧
    (∀ respId : Nat, create_asset_result .netError respId = none) := by
  refine ⟨by decide, fun _ => rfl, fun _ => rfl, fun _ => rfl⟩

/-- Witness for `create_asset_kwargs_mismatch`: the `manufacturer` keyword
of the call site is not an accepted parameter. -/
theorem create_asset_kwargs_mismatch_witness :
    "manufacturer" ∉ create_asset_params :=
  create_asset_kwargs_mismatch.1 "manufacturer" (by decide)

theorem specBlockedIP_iff_source (ip : IPAddr) (hwf : ip.wf) :
    specBlockedIP ip ↔
      BLOCKED_IP_NETWORKS.any (fun network => network.contains ip) = true := by
  cases ip with
  | v4 n =>
    simp only [IPAddr.wf] at hwf
    simp only [specBlockedIP, BLOCKED_IP_NETWORKS, IPNetwork.contains,
      ipv4Octets, List.any_cons, List.any_nil, Bool.or_eq_true,
      Bool.and_eq_true, Bool.not_eq_true', decide_eq_true_eq,
      Bool.false_and, Bool.true_and, Bool.or_false]
    norm_num
    omega
  | v6 n =>
    simp only [IPAddr.wf] at hwf
    simp only [specBlockedIP, BLOCKED_IP_NETWORKS, IPNetwork.contains,
      ipv4Octets, List.any_cons, List.any_nil, Bool.or_eq_true,
      Bool.and_eq_true, Bool.not_eq_true', decide_eq_true_eq,
      Bool.false_and, Bool.true_and, Bool.or_false]
    norm_num
    omega

/-- **C3.** `validate_rt_url` raises `InvalidURL` whenever the host is a
literal IP address inside 10/8, 172.16/12, 192.168/16, 127/8, 169.254/16,
::1/128, fe80::/10 or fc00::/7; whenever the host (case-folded) is a
denylisted hostname; whenever it matches a blocked pattern (the literal
169.254.169.254, or ending in `.internal` or `.local`); and for every
`http://` URL when plaintext is not allowed.  It returns the URL unchanged
for `https://rt.example.com`, and rejects the four concrete URLs of the
claim for either value of the plaintext flag. -/
theorem validate_rt_url_policy :
    (∀ (u : ParsedUrl) (a : Bool) (h : String) (ip : IPAddr),
      u.hostname = some h → parse_ip h = some ip → ip.wf → specBlockedIP ip →
      ∃ r, validate_rt_url u a = .error (.invalidURL r)) ∧
    (∀ (u : ParsedUrl) (a : Bool) (h : String),
      u.hostname = some h → pyLower h ∈ BLOCKED_HOSTNAMES →
      ∃ r, validate_rt_url u a = .error (.invalidURL r)) ∧
    (∀ (u : ParsedUrl) (a : Bool) (h : String),
      u.hostname = some h → matchesBlockedPattern (pyLower h) = true →
      ∃ r, validate_rt_url u a = .error (.invalidURL r)) ∧
    (∀ u : ParsedUrl, u.scheme = "http" →
      ∃ r, validate_rt_url u false = .error (.invalidURL r)) ∧
    (validate_rt_url ⟨"https://rt.example.com", "https", some "rt.example.com"⟩ false
      = .ok "https://rt.example.com") ∧
    (∀ a, ¬ (validate_rt_url
      ⟨"http://169.254.169.254/", "http", some "169.254.169.254"⟩ a).isOk) ∧
    (∀ a, ¬ (validate_rt_url
      ⟨"http://localhost/", "http", some "localhost"⟩ a).isOk) ∧
    (∀ a, ¬ (validate_rt_url
      ⟨"http://10.0.0.5/", "http", some "10.0.0.5"⟩ a).isOk) ∧
    (∀ a, ¬ (validate_rt_url
      ⟨"http://foo.internal/", "http", some "foo.internal"⟩ a).isOk) := by
  refine ⟨?_, ?_, ?_, ?_, rfl, by decide, by decide, by decide, by decide⟩
  · intro u a h ip hh hip hwf hspec
    have hb := (specBlockedIP_iff_source ip hwf).mp hspec
    unfold validate_rt_url
    simp only [hh, Option.getD_some]
    split_ifs <;> try exact ⟨_, rfl⟩
    simp only [hip, hb, if_true]
    exact ⟨_, rfl⟩
  · intro u a h hh hmem
    unfold validate_rt_url
    simp only [hh, Option.getD_some]
    split_ifs <;> exact ⟨_, rfl⟩
  · intro u a h hh hpat
    unfold validate_rt_url
    simp only [hh, Option.getD_some]
    split_ifs <;> exact ⟨_, rfl⟩
  · intro u hs
    by_cases hr : u.raw = ""
    · exact ⟨"URL cannot be empty", by simp [validate_rt_url, hr]⟩
    · exact ⟨"Only HTTPS URLs are allowed for security",
        by simp [validate_rt_url, hr, hs]⟩

/-- Witness for `validate_rt_url_policy`: the IP-range conjunct applied to
`https://10.22.0.7` (inside 10/8), and the scheme conjunct applied to a
plain-http URL. -/
theorem validate_rt_url_policy_witness :
    (∃ r, validate_rt_url ⟨"https://10.22.0.7", "https", some "10.22.0.7"⟩ true
      = .error (.invalidURL r)) ∧
    (∃ r, validate_rt_url ⟨"http://rt.example.com", "http", some "rt.example.com"⟩ false
      = .error (.invalidURL r)) := by
  constructor
  · exact validate_rt_url_policy.1
      ⟨"https://10.22.0.7", "https", some "10.22.0.7"⟩ true "10.22.0.7"
      (.v4 169213959) rfl (by decide)
      (by norm_num : (169213959 : Nat) < 2 ^ 32)
      (by norm_num [specBlockedIP])
  · exact validate_rt_url_policy.2.2.2.1
      ⟨"http://rt.example.com", "http", some "rt.example.com"⟩ rfl

theorem sync_sweep_tally (reg : Registry) (o : SyncOracle) (catalog address : String) :
    ∀ (devs : List Device) (st : RemoteState),
      (sync_sweep reg o catalog address devs st).1.synced +
        (sync_sweep reg o catalog address devs st).1.failed +
        (sync_sweep reg o catalog address devs st).1.skipped = devs.length ∧
      (sync_sweep reg o catalog address devs st).1.deleted = 0 := by
  intro devs
  induction devs with
  | nil => intro st; simp [sync_sweep]
  | cons d rest ih =>
    intro st
    obtain ⟨ihs, ihd⟩ := ih (sync_device reg o st catalog d.id address).2
    simp only [sync_sweep]
    rcases h1 : (sync_device reg o st catalog d.id address).1 with _ | res
    · simp only [h1]
      exact ⟨by simp only [List.length_cons]; omega, ihd⟩
    · rcases res <;> simp only [h1] <;>
        exact ⟨by simp only [List.length_cons]; omega, ihd⟩

/-- **C10.** The per-device tallies of `sync_all_devices` always satisfy
`synced + failed + skipped = number of devices in the registry` (each
tally a natural number, hence non-negative); the `deleted` tally is zero
without cleanup, equals exactly the orphan-cleanup count with cleanup,
and the cleanup phase never changes the per-device tallies. -/
theorem sync_all_devices_tally_invariant (reg : Registry) (o : SyncOracle)
    (catalog address : String) (st : RemoteState) :
    ∀ b : Bool,
      (sync_all_devices reg o catalog b address st).1.synced +
        (sync_all_devices reg o catalog b address st).1.failed +
        (sync_all_devices reg o catalog b address st).1.skipped
        = reg.devices.length ∧
      (sync_all_devices reg o catalog false address st).1.deleted = 0 ∧
      (sync_all_devices reg o catalog true address st).1.deleted =
        (cleanup_orphaned_assets reg o
          (sync_sweep reg o catalog address reg.devices st).2.1 catalog).2 ∧
      (sync_all_devices reg o catalog true address st).1.synced =
        (sync_all_devices reg o catalog false address st).1.synced ∧
      (sync_all_devices reg o catalog true address st).1.failed =
        (sync_all_devices reg o catalog false address st).1.failed ∧
      (sync_all_devices reg o catalog true address st).1.skipped =
        (sync_all_devices reg o catalog false address st).1.skipped := by
  intro b
  obtain ⟨hsum, hdel⟩ := sync_sweep_tally reg o catalog address reg.devices st
  refine ⟨?_, ?_, ?_, ?_, ?_, ?_⟩ <;> cases b <;>
    simp only [sync_all_devices] <;> simp [hsum, hdel]

/-- **C9.** When no asset is resolved for the device — the asset search
found nothing or soft-failed, or the device id is empty — the
`create_ticket` handler performs no open-ticket search
(`searched_tickets = false`), and unconditionally creates a new ticket
(outcome `created`, with the server's next ticket id), whatever tickets
already exist. -/
theorem handle_create_ticket_without_asset (reg : Registry) (entry : EntryData)
    (haUrlAuto : Option String) (assetSearchOk : Bool) (st : RemoteState)
    (device_id subject text : String)
    (hnone : resolve_asset_id assetSearchOk st entry.catalog device_id = none) :
    (handle_create_ticket reg entry haUrlAuto assetSearchOk st
        device_id subject text).2.action = "created" ∧
    (handle_create_ticket reg entry haUrlAuto assetSearchOk st
        device_id subject text).2.searched_tickets = false ∧
    (handle_create_ticket reg entry haUrlAuto assetSearchOk st
        device_id subject text).2.ticket_id = st.nextTicketId := by
  simp [handle_create_ticket, hnone, create_ticket_op]

/-- Witness for `handle_create_ticket_without_asset`: the remote store
already holds an open ticket with the same DeviceId and subject, and an
asset for the device, but the asset search soft-fails; the handler
creates a second ticket without searching. -/
theorem handle_create_ticket_without_asset_witness :
    resolve_asset_id false
      ⟨[⟨1, "Q", "Leak", "new", "water", "dev-1", "", "", "", none, []⟩],
       [⟨5, "C", "Boiler", "active", some "dev-1"⟩], 2, 6⟩ "C" "dev-1" = none ∧
    (handle_create_ticket ⟨[], []⟩ ⟨"Q", "https://rt.example.com", "", "", "C"⟩
        none false
        ⟨[⟨1, "Q", "Leak", "new", "water", "dev-1", "", "", "", none, []⟩],
         [⟨5, "C", "Boiler", "active", some "dev-1"⟩], 2, 6⟩
        "dev-1" "Leak" "again").2.action = "created" ∧
    (handle_create_ticket ⟨[], []⟩ ⟨"Q", "https://rt.example.com", "", "", "C"⟩
        none false
        ⟨[⟨1, "Q", "Leak", "new", "water", "dev-1", "", "", "", none, []⟩],
         [⟨5, "C", "Boiler", "active", some "dev-1"⟩], 2, 6⟩
        "dev-1" "Leak" "again").2.searched_tickets = false := by
  refine ⟨by decide, ?_, ?_⟩
  · exact (handle_create_ticket_without_asset ⟨[], []⟩
      ⟨"Q", "https://rt.example.com", "", "", "C"⟩ none false
      ⟨[⟨1, "Q", "Leak", "new", "water", "dev-1", "", "", "", none, []⟩],
       [⟨5, "C", "Boiler", "active", some "dev-1"⟩], 2, 6⟩
      "dev-1" "Leak" "again" (by decide)).1
  · exact (handle_create_ticket_without_asset ⟨[], []⟩
      ⟨"Q", "https://rt.example.com", "", "", "C"⟩ none false
      ⟨[⟨1, "Q", "Leak", "new", "water", "dev-1", "", "", "", none, []⟩],
       [⟨5, "C", "Boiler", "active", some "dev-1"⟩], 2, 6⟩
      "dev-1" "Leak" "again" (by decide)).2.1

theorem handle_create_ticket_preserves_assets (reg : Registry) (entry : EntryData)
    (hau : Option String) (ok : Bool) (st : RemoteState) (d s t : String) :
    (handle_create_ticket reg entry hau ok st d s t).1.assets = st.assets := by
  simp only [handle_create_ticket]
  split
  · simp [add_comment_op]
  · split <;> simp [create_ticket_op, link_ticket_op]

theorem resolve_asset_id_assets_congr (ok : Bool) (st st' : RemoteState)
    (h : st'.assets = st.assets) (c d : String) :
    resolve_asset_id ok st' c d = resolve_asset_id ok st c d := by
  simp [resolve_asset_id, search_asset, h]

theorem map_link_id_of_fresh (tid aid : Nat) :
    ∀ l : List Ticket, (∀ t ∈ l, t.id < tid) →
      l.map (fun t => if t.id == tid then { t with refersToAsset := some aid } else t)
        = l := by
  intro l
  induction l with
  | nil => intro _; rfl
  | cons t rest ih =>
    intro hl
    have ht : t.id ≠ tid := Nat.ne_of_lt (hl t (by simp))
    simp only [List.map_cons, beq_eq_false_iff_ne.mpr ht, if_neg, ih
      (fun x hx => hl x (by simp [hx])), Bool.false_eq_true, ite_false]

/-- **C1 counterexample.** Two `create_ticket` invocations with the same
device and subject, on a store holding no asset record for the device:
the first creates a ticket that remains open, yet the second also reports
`created` with a different ticket identifier — because the duplicate
check only runs when an asset is resolved. -/
theorem handle_create_ticket_dedup_counterexample :
    (handle_create_ticket
        ⟨[⟨"dev-1", some "Boiler", none, none, none, none, none, none, none,
           none, [], none⟩], []⟩
        ⟨"Q", "https://rt.example.com", "", "", "C"⟩ none true
        ⟨[], [], 1, 1⟩ "dev-1" "Leak" "water on floor").2.action = "created" ∧
    (∀ t ∈ (handle_create_ticket
        ⟨[⟨"dev-1", some "Boiler", none, none, none, none, none, none, none,
           none, [], none⟩], []⟩
        ⟨"Q", "https://rt.example.com", "", "", "C"⟩ none true
        ⟨[], [], 1, 1⟩ "dev-1" "Leak" "water on floor").1.tickets,
      t.deviceIdCF = "dev-1" ∧ t.subject = "Leak" ∧ t.status ∈ OPEN_STATUSES) ∧
    (handle_create_ticket
        ⟨[⟨"dev-1", some "Boiler", none, none, none, none, none, none, none,
           none, [], none⟩], []⟩
        ⟨"Q", "https://rt.example.com", "", "", "C"⟩ none true
        (handle_create_ticket
          ⟨[⟨"dev-1", some "Boiler", none, none, none, none, none, none, none,
             none, [], none⟩], []⟩
          ⟨"Q", "https://rt.example.com", "", "", "C"⟩ none true
          ⟨[], [], 1, 1⟩ "dev-1" "Leak" "water on floor").1
        "dev-1" "Leak" "water on floor").2.action = "created" ∧
    (handle_create_ticket
        ⟨[⟨"dev-1", some "Boiler", none, none, none, none, none, none, none,
           none, [], none⟩], []⟩
        ⟨"Q", "https://rt.example.com", "", "", "C"⟩ none true
        (handle_create_ticket
          ⟨[⟨"dev-1", some "Boiler", none, none, none, none, none, none, none,
             none, [], none⟩], []⟩
          ⟨"Q", "https://rt.example.com", "", "", "C"⟩ none true
          ⟨[], [], 1, 1⟩ "dev-1" "Leak" "water on floor").1
        "dev-1" "Leak" "water on floor").2.ticket_id ≠
      (handle_create_ticket
        ⟨[⟨"dev-1", some "Boiler", none, none, none, none, none, none, none,
           none, [], none⟩], []⟩
        ⟨"Q", "https://rt.example.com", "", "", "C"⟩ none true
        ⟨[], [], 1, 1⟩ "dev-1" "Leak" "water on floor").2.ticket_id := by
  decide

/-- **C1 (amended).** For every pair of `create_ticket` invocations with
the same device identifier and subject, where an asset identifier is
resolved for the device in both invocations, remote ticket ids are fresh,
and the first invocation creates a ticket (which remains open), the
second invocation appends a comment to that ticket: outcomes `created`
then `commented`, same ticket identifier.  An invocation with a different
subject (one that has no open ticket yet) creates a new, distinct
ticket. -/
theorem handle_create_ticket_dedup (reg : Registry) (entry : EntryData)
    (hau1 hau2 : Option String) (ok1 ok2 : Bool) (st : RemoteState)
    (device_id subject text1 text2 : String) (aid : Nat)
    (hfresh : ∀ t ∈ st.tickets, t.id < st.nextTicketId)
    (ha1 : resolve_asset_id ok1 st entry.catalog device_id = some aid)
    (ha2 : resolve_asset_id ok2 st entry.catalog device_id = some aid)
    (hcre : (handle_create_ticket reg entry hau1 ok1 st
      device_id subject text1).2.action = "created") :
    ((handle_create_ticket reg entry hau2 ok2
        (handle_create_ticket reg entry hau1 ok1 st device_id subject text1).1
        device_id subject text2).2.action = "commented" ∧
      (handle_create_ticket reg entry hau2 ok2
        (handle_create_ticket reg entry hau1 ok1 st device_id subject text1).1
        device_id subject text2).2.ticket_id
        = (handle_create_ticket reg entry hau1 ok1 st
            device_id subject text1).2.ticket_id) ∧
    (∀ subject2 text3, subject2 ≠ subject →
      search_tickets_for_asset st entry.queue aid subject2 = [] →
      (handle_create_ticket reg entry hau2 ok2
        (handle_create_ticket reg entry hau1 ok1 st device_id subject text1).1
        device_id subject2 text3).2.action = "created" ∧
      (handle_create_ticket reg entry hau2 ok2
        (handle_create_ticket reg entry hau1 ok1 st device_id subject text1).1
        device_id subject2 text3).2.ticket_id
        ≠ (handle_create_ticket reg entry hau1 ok1 st
            device_id subject text1).2.ticket_id) := by
  rcases hx : (search_tickets_for_asset st entry.queue aid subject).head? with _ | t0
  case some =>
    exfalso
    simp only [handle_create_ticket, ha1, hx] at hcre
    exact absurd hcre (by decide)
  have hx' : search_tickets_for_asset st entry.queue aid subject = [] :=
    List.head?_eq_none_iff.mp hx
  have hxf : st.tickets.filter (fun t =>
      t.queue == entry.queue && OPEN_STATUSES.contains t.status &&
      t.refersToAsset == some aid && t.subject == subject) = [] := hx'
  -- the first invocation takes the created branch
  have h1id : (handle_create_ticket reg entry hau1 ok1 st
      device_id subject text1).2.ticket_id = st.nextTicketId := by
    simp [handle_create_ticket, ha1, hx, create_ticket_op]
  have h1tks : ∃ tstar : Ticket,
      (handle_create_ticket reg entry hau1 ok1 st
        device_id subject text1).1.tickets = st.tickets ++ [tstar] ∧
      tstar.id = st.nextTicketId ∧ tstar.queue = entry.queue ∧
      tstar.subject = subject ∧ tstar.status = "new" ∧
      tstar.refersToAsset = some aid := by
    simp only [handle_create_ticket, ha1, hx, create_ticket_op, link_ticket_op,
      List.map_append, List.map_cons, List.map_nil]
    rw [map_link_id_of_fresh st.nextTicketId aid st.tickets hfresh]
    simp only [beq_self_eq_true, if_true, ite_true]
    exact ⟨_, rfl, rfl, rfl, rfl, rfl, rfl⟩
  obtain ⟨tstar, htks, hid, hq, hsub, hstat, href⟩ := h1tks
  have h1next : (handle_create_ticket reg entry hau1 ok1 st
      device_id subject text1).1.nextTicketId = st.nextTicketId + 1 := by
    simp [handle_create_ticket, ha1, hx, create_ticket_op, link_ticket_op]
  have hassets : (handle_create_ticket reg entry hau1 ok1 st
      device_id subject text1).1.assets = st.assets :=
    handle_create_ticket_preserves_assets reg entry hau1 ok1 st
      device_id subject text1
  have hres2 : resolve_asset_id ok2
      (handle_create_ticket reg entry hau1 ok1 st device_id subject text1).1
      entry.catalog device_id = some aid := by
    rw [resolve_asset_id_assets_congr ok2 st _ hassets]
    exact ha2
  set st1 := (handle_create_ticket reg entry hau1 ok1 st
    device_id subject text1).1 with hst1def
  constructor
  · -- same subject: comments on the created ticket
    have hsearch2 : search_tickets_for_asset st1 entry.queue aid subject
        = [tstar] := by
      rw [search_tickets_for_asset, htks, List.filter_append, hxf]
      simp [hq, hsub, hstat, href, OPEN_STATUSES]
    constructor
    · simp [handle_create_ticket, hres2, hsearch2]
    · rw [h1id]
      simp [handle_create_ticket, hres2, hsearch2, hid]
  · -- a different subject creates a fresh ticket
    intro subject2 text3 hne hnone
    have hnf : st.tickets.filter (fun t =>
        t.queue == entry.queue && OPEN_STATUSES.contains t.status &&
        t.refersToAsset == some aid && t.subject == subject2) = [] := hnone
    have hsearch2n : search_tickets_for_asset st1 entry.queue aid subject2
        = [] := by
      rw [search_tickets_for_asset, htks, List.filter_append, hnf]
      simp [hsub, beq_eq_false_iff_ne.mpr (Ne.symm hne)]
    constructor
    · simp [handle_create_ticket, hres2, hsearch2n]
    · rw [h1id]
      have heq : (handle_create_ticket reg entry hau2 ok2 st1
          device_id subject2 text3).2.ticket_id
          = st.nextTicketId + 1 := by
        simp [handle_create_ticket, hres2, hsearch2n, create_ticket_op, h1next]
      omega

/-- Witness for `handle_create_ticket_dedup` on a concrete store: a
device with an asset record, an empty ticket store, two filings of
`Leak`, then a filing of `Noise`. -/
theorem handle_create_ticket_dedup_witness :
    (handle_create_ticket ⟨[], []⟩ ⟨"Q", "https://rt", "", "", "C"⟩ none true
      (handle_create_ticket ⟨[], []⟩ ⟨"Q", "https://rt", "", "", "C"⟩ none true
        ⟨[], [⟨5, "C", "Boiler", "active", some "dev-1"⟩], 1, 6⟩
        "dev-1" "Leak" "water").1
      "dev-1" "Leak" "again").2.action = "commented" ∧
    (handle_create_ticket ⟨[], []⟩ ⟨"Q", "https://rt", "", "", "C"⟩ none true
      (handle_create_ticket ⟨[], []⟩ ⟨"Q", "https://rt", "", "", "C"⟩ none true
        ⟨[], [⟨5, "C", "Boiler", "active", some "dev-1"⟩], 1, 6⟩
        "dev-1" "Leak" "water").1
      "dev-1" "Leak" "again").2.ticket_id
      = (handle_create_ticket ⟨[], []⟩ ⟨"Q", "https://rt", "", "", "C"⟩ none true
          ⟨[], [⟨5, "C", "Boiler", "active", some "dev-1"⟩], 1, 6⟩
          "dev-1" "Leak" "water").2.ticket_id ∧
    (handle_create_ticket ⟨[], []⟩ ⟨"Q", "https://rt", "", "", "C"⟩ none true
      (handle_create_ticket ⟨[], []⟩ ⟨"Q", "https://rt", "", "", "C"⟩ none true
        ⟨[], [⟨5, "C", "Boiler", "active", some "dev-1"⟩], 1, 6⟩
        "dev-1" "Leak" "water").1
      "dev-1" "Noise" "hum").2.action = "created" := by
  have h := handle_create_ticket_dedup ⟨[], []⟩ ⟨"Q", "https://rt", "", "", "C"⟩
    none none true true ⟨[], [⟨5, "C", "Boiler", "active", some "dev-1"⟩], 1, 6⟩
    "dev-1" "Leak" "water" "again" 5
    (by intro t ht; simp at ht) (by decide) (by decide) (by decide)
  exact ⟨h.1.1, h.1.2, (h.2 "Noise" "hum" (by decide) (by decide)).1⟩

theorem find_self_of_nodup_key {α κ : Type} [BEq κ] [LawfulBEq κ] (key : α → κ) :
    ∀ l : List α, (l.map key).Nodup → ∀ a ∈ l,
      l.find? (fun x => key x == key a) = some a := by
  intro l
  induction l with
  | nil => intro _ a ha; cases ha
  | cons a0 rest ih =>
    intro hnd a ha
    rcases List.mem_cons.mp ha with h0 | hrest
    · subst h0
      simp [List.find?_cons]
    · have hne : key a0 ≠ key a := by
        intro hcontra
        have : key a ∈ rest.map key := List.mem_map_of_mem _ hrest
        rw [← hcontra] at this
        exact (List.nodup_cons.mp hnd).1 this
      simp only [List.find?_cons, beq_eq_false_iff_ne.mpr hne]
      exact ih (List.Nodup.of_cons hnd) a hrest

theorem getDevice_self (reg : Registry)
    (hnd : (reg.devices.map (·.id)).Nodup) :
    ∀ d ∈ reg.devices, reg.getDevice d.id = some d := by
  intro d hd
  unfold Registry.getDevice
  exact find_self_of_nodup_key (fun d : Device => d.id) reg.devices hnd d hd

theorem sync_sweep_create_path (reg : Registry) (o : SyncOracle)
    (catalog address : String) :
    ∀ (devs : List Device) (st : RemoteState),
      (∀ d ∈ devs, reg.getDevice d.id = some d) →
      (∀ d ∈ devs, d.entry_type = none) →
      (devs.map (·.id)).Nodup →
      (∀ d ∈ devs, ∀ a ∈ st.assets,
        ¬(a.catalog = catalog ∧ a.deviceIdCF = some d.id)) →
      (sync_sweep reg o catalog address devs st).1.synced
          = (devs.filter (fun d => !isFailing o d.id)).length ∧
      (sync_sweep reg o catalog address devs st).1.failed
          = (devs.filter (fun d => isFailing o d.id)).length ∧
      (sync_sweep reg o catalog address devs st).1.skipped = 0 ∧
      (sync_sweep reg o catalog address devs st).2.2 = devs.map (·.id) := by
  intro devs
  induction devs with
  | nil => intro st _ _ _ _; simp [sync_sweep]
  | cons d0 rest ih =>
    intro st hget hphys hnd hnoa
    have hg0 : reg.getDevice d0.id = some d0 := hget d0 (by simp)
    have hp0 : d0.entry_type = none := hphys d0 (by simp)
    have hsearch : search_asset (o.searchOk d0.id) st catalog d0.id = none := by
      unfold search_asset
      have hfil : st.assets.filter
          (fun a => a.catalog == catalog && a.deviceIdCF == some d0.id) = [] := by
        refine List.filter_eq_nil_iff.mpr ?_
        intro a ha hcontra
        simp only [Bool.and_eq_true, beq_iff_eq] at hcontra
        exact hnoa d0 (by simp) a ha ⟨hcontra.1, hcontra.2⟩
      cases o.searchOk d0.id <;> simp [hfil]
    have hdev : (sync_device reg o st catalog d0.id address)
        = match o.create d0.id with
          | .raises => (.error (), st)
          | .fails => (.ok .failure, st)
          | .succeeds =>
            (.ok .success, (create_asset_op st catalog
              (orStr d0.name_by_user (orStr d0.name d0.id)) d0.id).1) := by
      unfold sync_device
      rw [hg0]
      simp [hp0, hsearch]
    have hid0 : d0.id ∉ rest.map (·.id) := (List.nodup_cons.mp hnd).1
    have hrest_base : ∀ (st' : RemoteState),
        (∀ d ∈ rest, ∀ a ∈ st'.assets,
          ¬(a.catalog = catalog ∧ a.deviceIdCF = some d.id)) →
        (sync_sweep reg o catalog address rest st').1.synced
            = (rest.filter (fun d => !isFailing o d.id)).length ∧
        (sync_sweep reg o catalog address rest st').1.failed
            = (rest.filter (fun d => isFailing o d.id)).length ∧
        (sync_sweep reg o catalog address rest st').1.skipped = 0 ∧
        (sync_sweep reg o catalog address rest st').2.2 = rest.map (·.id) :=
      fun st' hno' => ih st' (fun d hd => hget d (by simp [hd]))
        (fun d hd => hphys d (by simp [hd])) (List.Nodup.of_cons hnd) hno'
    simp only [sync_sweep, hdev]
    rcases hc : o.create d0.id with _ | _ | _
    · -- succeeds
      have hrest := hrest_base
        (create_asset_op st catalog
          (orStr d0.name_by_user (orStr d0.name d0.id)) d0.id).1
        (by
          intro d hd a ha hcontra
          simp only [create_asset_op, List.mem_append, List.mem_singleton] at ha
          rcases ha with ha | ha
          · exact hnoa d (by simp [hd]) a ha hcontra
          · subst ha
            simp only at hcontra
            have : d.id ∈ rest.map (·.id) := List.mem_map_of_mem _ hd
            rw [← Option.some_inj.mp hcontra.2] at this
            exact hid0 this)
      simp only [hc]
      refine ⟨?_, ?_, ?_, ?_⟩ <;>
        simp [List.filter_cons, isFailing, hc, hrest.1, hrest.2.1,
          hrest.2.2.1, hrest.2.2.2]
    · -- fails
      have hrest := hrest_base st (fun d hd a ha => hnoa d (by simp [hd]) a ha)
      simp only [hc]
      refine ⟨?_, ?_, ?_, ?_⟩ <;>
        simp [List.filter_cons, isFailing, hc, hrest.1, hrest.2.1,
          hrest.2.2.1, hrest.2.2.2]
    · -- raises
      have hrest := hrest_base st (fun d hd a ha => hnoa d (by simp [hd]) a ha)
      simp only [hc]
      refine ⟨?_, ?_, ?_, ?_⟩ <;>
        simp [List.filter_cons, isFailing, hc, hrest.1, hrest.2.1,
          hrest.2.2.1, hrest.2.2.2]

/-- **C6.** In a registry of `N` physical devices, all on the create path,
where exactly one device's create call fails or raises, the sweep still
attempts every device in order and tallies `synced = N - 1`,
`failed = 1` (with or without the cleanup phase). -/
theorem sync_all_devices_partial_failure (reg : Registry) (o : SyncOracle)
    (catalog address : String) (st : RemoteState)
    (hnd : (reg.devices.map (·.id)).Nodup)
    (hphys : ∀ d ∈ reg.devices, d.entry_type = none)
    (hnoa : ∀ d ∈ reg.devices, ∀ a ∈ st.assets,
      ¬(a.catalog = catalog ∧ a.deviceIdCF = some d.id))
    (hone : (reg.devices.filter (fun d => isFailing o d.id)).length = 1) :
    ∀ b : Bool,
      (sync_all_devices reg o catalog b address st).1.synced
        = reg.devices.length - 1 ∧
      (sync_all_devices reg o catalog b address st).1.failed = 1 ∧
      (sync_sweep reg o catalog address reg.devices st).2.2
        = reg.devices.map (·.id) := by
  intro b
  obtain ⟨hs, hf, _hsk, hatt⟩ := sync_sweep_create_path reg o catalog address
    reg.devices st (getDevice_self reg hnd) hphys hnd hnoa
  have hlen := List.length_eq_length_filter_add
    (l := reg.devices) (fun d => isFailing o d.id)
  have hsynced : (sync_sweep reg o catalog address reg.devices st).1.synced
      = reg.devices.length - 1 := by
    rw [hs]
    have : (reg.devices.filter (fun d => !isFailing o d.id)).length
        = reg.devices.length - 1 := by omega
    simpa using this
  refine ⟨?_, ?_, hatt⟩ <;> cases b <;>
    simp [sync_all_devices, hsynced, hf, hone]

/-- Witness for `sync_all_devices_partial_failure`: three physical
devices, an empty remote store, the middle device's create call returns a
soft failure. -/
theorem sync_all_devices_partial_failure_witness :
    (sync_all_devices
      ⟨[⟨"dev-1", some "Device 1", none, none, none, none, none, none, none,
          none, [], none⟩,
        ⟨"dev-2", some "Device 2", none, none, none, none, none, none, none,
          none, [], none⟩,
        ⟨"dev-3", some "Device 3", none, none, none, none, none, none, none,
          none, [], none⟩], []⟩
      ⟨fun _ => true,
       fun id => if id == "dev-2" then .fails else .succeeds,
       fun _ => true⟩
      "C" true "" ⟨[], [], 1, 1⟩).1.synced = 2 ∧
    (sync_all_devices
      ⟨[⟨"dev-1", some "Device 1", none, none, none, none, none, none, none,
          none, [], none⟩,
        ⟨"dev-2", some "Device 2", none, none, none, none, none, none, none,
          none, [], none⟩,
        ⟨"dev-3", some "Device 3", none, none, none, none, none, none, none,
          none, [], none⟩], []⟩
      ⟨fun _ => true,
       fun id => if id == "dev-2" then .fails else .succeeds,
       fun _ => true⟩
      "C" true "" ⟨[], [], 1, 1⟩).1.failed = 1 := by
  have h := sync_all_devices_partial_failure
    ⟨[⟨"dev-1", some "Device 1", none, none, none, none, none, none, none,
        none, [], none⟩,
      ⟨"dev-2", some "Device 2", none, none, none, none, none, none, none,
        none, [], none⟩,
      ⟨"dev-3", some "Device 3", none, none, none, none, none, none, none,
        none, [], none⟩], []⟩
    ⟨fun _ => true,
     fun id => if id == "dev-2" then .fails else .succeeds,
     fun _ => true⟩
    "C" "" ⟨[], [], 1, 1⟩
    (by decide) (by decide) (by intro d _ a ha; cases ha) (by decide) true
  exact ⟨h.1, h.2.1⟩

theorem patchDel_id (g : Asset → Bool) (a : Asset) : (patchDel g a).id = a.id := by
  unfold patchDel; split <;> rfl

theorem patchDel_deviceIdCF (g : Asset → Bool) (a : Asset) :
    (patchDel g a).deviceIdCF = a.deviceIdCF := by
  unfold patchDel; split <;> rfl

theorem find?_id_map_patchDel (g : Asset → Bool) (i : Nat) :
    ∀ l : List Asset,
      (l.map (patchDel g)).find? (fun a => a.id == i)
        = (l.find? (fun a => a.id == i)).map (patchDel g) := by
  intro l
  induction l with
  | nil => rfl
  | cons a rest ih =>
    by_cases hc : (a.id == i) = true
    · simp [List.find?_cons, patchDel_id, hc]
    · simp [List.find?_cons, patchDel_id, hc, ih]

theorem patch_then_update (g : Asset → Bool) (i : Nat) (a : Asset) :
    (if (patchDel g a).id == i then
      { patchDel g a with
          name := (none : Option String).getD (patchDel g a).name,
          status := (some "deleted").getD (patchDel g a).status }
     else patchDel g a)
    = patchDel (fun x => g x || x.id == i) a := by
  unfold patchDel
  by_cases hg : g a = true <;> by_cases hi : (a.id == i) = true <;>
    simp [hg, hi, Option.getD]

theorem cleanup_loop_charact (valid : List String) (o : SyncOracle)
    (hok : ∀ i, o.updateOk i = true)
    (base : List Asset) (hnd : (base.map (·.id)).Nodup) :
    ∀ (refs : List Asset) (g : Asset → Bool), (∀ r ∈ refs, r ∈ base) →
      ∀ (tks : List Ticket) (ntid naid : Nat),
      cleanup_loop valid o refs ⟨tks, base.map (patchDel g), ntid, naid⟩
        = (⟨tks, base.map (patchDel (fun a =>
              g a || (refs.contains a && orphanDel valid a))), ntid, naid⟩,
           (refs.filter (orphanDel valid)).length) := by
  intro refs
  induction refs with
  | nil =>
    intro g _ tks ntid naid
    simp [cleanup_loop]
  | cons ref rest ih =>
    intro g href tks ntid naid
    have hrefmem : ref ∈ base := href ref (by simp)
    have hrest : ∀ r ∈ rest, r ∈ base := fun r hr => href r (by simp [hr])
    have hfind : (base.map (patchDel g)).find? (fun a => a.id == ref.id)
        = some (patchDel g ref) := by
      rw [find?_id_map_patchDel,
        find_self_of_nodup_key (fun a : Asset => a.id) base hnd ref hrefmem]
      rfl
    -- when the head asset is skipped, only the head's flag must be erased
    have hskip : orphanDel valid ref = false →
        cleanup_loop valid o rest ⟨tks, base.map (patchDel g), ntid, naid⟩
          = (⟨tks, base.map (patchDel (fun a =>
                g a || ((ref :: rest).contains a && orphanDel valid a))),
              ntid, naid⟩,
             ((ref :: rest).filter (orphanDel valid)).length) := by
      intro hdel
      rw [ih g hrest tks ntid naid,
        List.filter_cons_of_neg (by simp [hdel])]
      have heq : base.map (patchDel (fun a =>
            g a || (rest.contains a && orphanDel valid a)))
          = base.map (patchDel (fun a =>
            g a || ((ref :: rest).contains a && orphanDel valid a))) := by
        refine List.map_congr_left ?_
        intro a _
        unfold patchDel
        by_cases hae : a = ref
        · subst hae
          simp [List.contains_cons, hdel]
        · simp [List.contains_cons, hae]
      rw [heq]
    by_cases h0 : (ref.id == 0) = true
    · simp only [cleanup_loop, h0, if_true, ite_true]
      exact hskip (by simp [orphanDel, h0])
    · simp only [cleanup_loop, h0, Bool.false_eq_true, ite_false]
      have hget : get_asset ⟨tks, base.map (patchDel g), ntid, naid⟩ ref.id
          = some (patchDel g ref) := by
        simp only [get_asset]
        exact hfind
      rw [hget]
      rcases hcf : ref.deviceIdCF with _ | d
      · simp only [patchDel_deviceIdCF, hcf]
        exact hskip (by simp [orphanDel, hcf])
      · simp only [patchDel_deviceIdCF, hcf]
        by_cases hd0 : (d == "") = true
        · simp only [hd0, if_true, ite_true]
          exact hskip (by simp [orphanDel, hcf, hd0])
        · simp only [hd0, Bool.false_eq_true, ite_false]
          by_cases hdv : valid.contains d
          · simp only [hdv, if_true, ite_true]
            refine hskip ?_
            simp only [orphanDel, hcf]
            simp
            intro _ _
            exact List.mem_of_elem_eq_true hdv
          · simp only [hdv, Bool.false_eq_true, ite_false]
            have hdel : orphanDel valid ref = true := by
              simp only [orphanDel, hcf]
              simp [h0, hd0]
              exact fun hmem => hdv (List.elem_eq_true_of_mem hmem)
            simp only [update_asset_op, hok ref.id, Bool.not_true,
              Bool.false_eq_true, ite_false, if_neg]
            have hmap : (base.map (patchDel g)).map (fun a =>
                if a.id == ref.id then
                  { a with name := (none : Option String).getD a.name,
                           status := (some "deleted").getD a.status }
                else a)
                = base.map (patchDel (fun x => g x || x.id == ref.id)) := by
              rw [List.map_map]
              exact List.map_congr_left (fun a _ => patch_then_update g ref.id a)
            rw [hmap, ih (fun x => g x || x.id == ref.id) hrest tks ntid naid,
              List.filter_cons_of_pos hdel]
            have heq : base.map (patchDel (fun a =>
                  (g a || a.id == ref.id) ||
                    (rest.contains a && orphanDel valid a)))
                = base.map (patchDel (fun a =>
                  g a || ((ref :: rest).contains a && orphanDel valid a))) := by
              refine List.map_congr_left ?_
              intro a ha
              unfold patchDel
              by_cases hae : a = ref
              · subst hae
                simp [List.contains_cons, hdel]
              · have hane : a.id ≠ ref.id := fun hcontra =>
                  hae (List.inj_on_of_nodup_map hnd ha hrefmem hcontra)
                simp [List.contains_cons, hae, hane]
            rw [heq]
            simp

theorem patchDel_false_eq_id : patchDel (fun _ => false) = id :=
  funext (fun a => by simp [patchDel])

theorem false_or_fun {α : Type} (f : α → Bool) :
    (fun a => false || f a) = f :=
  funext (fun a => Bool.false_or (f a))

theorem cleanup_orphaned_assets_spec (reg : Registry) (o : SyncOracle)
    (st : RemoteState) (catalog : String)
    (hok : ∀ i, o.updateOk i = true)
    (hnd : (st.assets.map (·.id)).Nodup) :
    cleanup_orphaned_assets reg o st catalog
      = ({ st with assets := st.assets.map (patchDel (fun a =>
            (list_assets st catalog).contains a &&
            orphanDel ((reg.devices.filter (fun d => d.entry_type.isNone)).map (·.id)) a)) },
         ((list_assets st catalog).filter (orphanDel
            ((reg.devices.filter (fun d => d.entry_type.isNone)).map (·.id)))).length) := by
  have hbase : st.assets = st.assets.map (patchDel (fun _ => false)) := by
    rw [patchDel_false_eq_id, List.map_id]
  unfold cleanup_orphaned_assets
  change cleanup_loop _ o (list_assets st catalog)
    ⟨st.tickets, st.assets, st.nextTicketId, st.nextAssetId⟩ = _
  conv_lhs => rw [hbase]
  rw [cleanup_loop_charact _ o hok st.assets hnd (list_assets st catalog)
    (fun _ => false) (fun r hr => List.mem_of_mem_filter hr)
    st.tickets st.nextTicketId st.nextAssetId]
  rw [false_or_fun]

/-- **C4 counterexample.** An active asset listed in the catalog whose
DeviceId custom field is missing, in a registry with no devices: the
claim says it must be transitioned to `deleted`, but the sweep skips it —
it stays `active` and the deleted count is 0. -/
theorem cleanup_missing_deviceid_counterexample :
    (cleanup_orphaned_assets ⟨[], []⟩
      ⟨fun _ => true, fun _ => .succeeds, fun _ => true⟩
      ⟨[], [⟨1, "C", "Ghost", "active", none⟩], 1, 2⟩ "C").2 = 0 ∧
    (cleanup_orphaned_assets ⟨[], []⟩
      ⟨fun _ => true, fun _ => .succeeds, fun _ => true⟩
      ⟨[], [⟨1, "C", "Ghost", "active", none⟩], 1, 2⟩ "C").1.assets
      = [⟨1, "C", "Ghost", "active", none⟩] ∧
    (⟨1, "C", "Ghost", "active", none⟩ : Asset)
      ∈ list_assets ⟨[], [⟨1, "C", "Ghost", "active", none⟩], 1, 2⟩ "C" := by
  decide

/-- **C4 (amended).** During the orphan-cleanup sweep (remote updates
succeeding; asset ids unique and truthy), a listed active asset is
transitioned to `deleted` if and only if its DeviceId custom field is
present, non-empty, and does not correspond to a currently-present
physical device; each such orphan is counted exactly once per sweep; an
asset whose DeviceId matches a physical device — and also, contrary to
the claim, an asset whose DeviceId is missing — is left unchanged. -/
theorem cleanup_orphaned_assets_amended (reg : Registry) (o : SyncOracle)
    (st : RemoteState) (catalog : String)
    (hok : ∀ i, o.updateOk i = true)
    (hnd : (st.assets.map (·.id)).Nodup) :
    (cleanup_orphaned_assets reg o st catalog).2
      = ((list_assets st catalog).filter (orphanDel
          ((reg.devices.filter (fun d => d.entry_type.isNone)).map (·.id)))).length ∧
    (∀ a ∈ list_assets st catalog, a.deviceIdCF = none →
      get_asset (cleanup_orphaned_assets reg o st catalog).1 a.id = some a) ∧
    (∀ a ∈ list_assets st catalog, ∀ d, a.deviceIdCF = some d → d ≠ "" →
      a.id ≠ 0 →
      d ∉ (reg.devices.filter (fun dv => dv.entry_type.isNone)).map (·.id) →
      get_asset (cleanup_orphaned_assets reg o st catalog).1 a.id
        = some { a with status := "deleted" }) ∧
    (∀ a ∈ list_assets st catalog, ∀ d, a.deviceIdCF = some d →
      d ∈ (reg.devices.filter (fun dv => dv.entry_type.isNone)).map (·.id) →
      get_asset (cleanup_orphaned_assets reg o st catalog).1 a.id = some a) := by
  rw [cleanup_orphaned_assets_spec reg o st catalog hok hnd]
  refine ⟨rfl, ?_, ?_, ?_⟩
  · intro a ha hcf
    have hmem : a ∈ st.assets := List.mem_of_mem_filter ha
    simp only [get_asset, find?_id_map_patchDel,
      find_self_of_nodup_key (fun x : Asset => x.id) st.assets hnd a hmem,
      Option.map_some']
    have horB : orphanDel ((reg.devices.filter
        (fun dv => dv.entry_type.isNone)).map (·.id)) a = false := by
      simp [orphanDel, hcf]
    simp only [patchDel, horB, Bool.and_false, Bool.false_eq_true, ite_false]
  · intro a ha d hcf hd0 hid hnin
    have hmem : a ∈ st.assets := List.mem_of_mem_filter ha
    simp only [get_asset, find?_id_map_patchDel,
      find_self_of_nodup_key (fun x : Asset => x.id) st.assets hnd a hmem,
      Option.map_some']
    have hcontains : (list_assets st catalog).contains a = true :=
      List.elem_eq_true_of_mem ha
    have hvalid : ((reg.devices.filter
        (fun dv => dv.entry_type.isNone)).map (·.id)).contains d = false := by
      cases h : ((reg.devices.filter
          (fun dv => dv.entry_type.isNone)).map (·.id)).contains d
      · rfl
      · exact absurd (List.mem_of_elem_eq_true h) hnin
    have horB : orphanDel ((reg.devices.filter
        (fun dv => dv.entry_type.isNone)).map (·.id)) a = true := by
      simp only [orphanDel, hcf, beq_eq_false_iff_ne.mpr hid,
        beq_eq_false_iff_ne.mpr hd0, hvalid]
      rfl
    have hcond : ((list_assets st catalog).contains a &&
        orphanDel ((reg.devices.filter
          (fun dv => dv.entry_type.isNone)).map (·.id)) a) = true := by
      rw [hcontains, horB]; rfl
    simp only [patchDel, hcond, if_true, ite_true]
  · intro a ha d hcf hin
    have hmem : a ∈ st.assets := List.mem_of_mem_filter ha
    simp only [get_asset, find?_id_map_patchDel,
      find_self_of_nodup_key (fun x : Asset => x.id) st.assets hnd a hmem,
      Option.map_some']
    have hvalid : ((reg.devices.filter
        (fun dv => dv.entry_type.isNone)).map (·.id)).contains d = true :=
      List.elem_eq_true_of_mem hin
    have horB : orphanDel ((reg.devices.filter
        (fun dv => dv.entry_type.isNone)).map (·.id)) a = false := by
      simp only [orphanDel, hcf, hvalid, Bool.not_true, Bool.and_false]
    simp only [patchDel, horB, Bool.and_false, Bool.false_eq_true, ite_false]

/-- Witness for `cleanup_orphaned_assets_amended`: a registry with one
physical device, one orphaned asset (DeviceId `gone`) and one matching
asset (DeviceId `dev-1`): one deletion is counted, the orphan's status
becomes `deleted`, the matching asset is left untouched. -/
theorem cleanup_orphaned_assets_amended_witness :
    (cleanup_orphaned_assets
      ⟨[⟨"dev-1", some "Boiler", none, none, none, none, none, none, none,
          none, [], none⟩], []⟩
      ⟨fun _ => true, fun _ => .succeeds, fun _ => true⟩
      ⟨[], [⟨1, "C", "Ghost", "active", some "gone"⟩,
            ⟨2, "C", "Boiler", "active", some "dev-1"⟩], 1, 3⟩ "C").2 = 1 ∧
    get_asset (cleanup_orphaned_assets
      ⟨[⟨"dev-1", some "Boiler", none, none, none, none, none, none, none,
          none, [], none⟩], []⟩
      ⟨fun _ => true, fun _ => .succeeds, fun _ => true⟩
      ⟨[], [⟨1, "C", "Ghost", "active", some "gone"⟩,
            ⟨2, "C", "Boiler", "active", some "dev-1"⟩], 1, 3⟩ "C").1 1
      = some ⟨1, "C", "Ghost", "deleted", some "gone"⟩ ∧
    get_asset (cleanup_orphaned_assets
      ⟨[⟨"dev-1", some "Boiler", none, none, none, none, none, none, none,
          none, [], none⟩], []⟩
      ⟨fun _ => true, fun _ => .succeeds, fun _ => true⟩
      ⟨[], [⟨1, "C", "Ghost", "active", some "gone"⟩,
            ⟨2, "C", "Boiler", "active", some "dev-1"⟩], 1, 3⟩ "C").1 2
      = some ⟨2, "C", "Boiler", "active", some "dev-1"⟩ := by
  have h := cleanup_orphaned_assets_amended
    ⟨[⟨"dev-1", some "Boiler", none, none, none, none, none, none, none,
        none, [], none⟩], []⟩
    ⟨fun _ => true, fun _ => .succeeds, fun _ => true⟩
    ⟨[], [⟨1, "C", "Ghost", "active", some "gone"⟩,
          ⟨2, "C", "Boiler", "active", some "dev-1"⟩], 1, 3⟩ "C"
    (fun _ => rfl) (by decide)
  refine ⟨by rw [h.1]; decide, ?_, ?_⟩
  · exact h.2.2.1 ⟨1, "C", "Ghost", "active", some "gone"⟩ (by decide)
      "gone" rfl (by decide) (by decide) (by decide)
  · exact h.2.2.2 ⟨2, "C", "Boiler", "active", some "dev-1"⟩ (by decide)
      "dev-1" rfl (by decide)

end HaRt
